import Mathlib

/-!
Shallow embedding of the authentication core of the `syntx` repository
(`src/utils/validation.py`, `src/utils/jwt_utils.py`, `src/app/models/user_model.py`,
`src/app/api/auth_routes.py`, `src/app/api/profile_routes.py`), together with
theorems settling the specification claims about it.

Conventions of the embedding:
  - Python strings are Lean `String`s; character tests done with `ord` in the
    source are done with `Char.toNat` here.
  - Timestamps are integers counting seconds (the `PyJWT` library compares the
    `exp` claim against `int(now)` at second granularity).
  - Effectful collaborators (the bcrypt comparison on a well-formed hash, the
    `email_validator` library, DNS MX lookups, the SQLAlchemy user store) are
    passed in explicitly as oracles / values, so every route handler becomes a
    pure function of its inputs and the relevant state.
  - A Python function that can raise is embedded with `Except`; one that
    catches all its exceptions is embedded with the caught result.
-/

namespace Syntx

/-! ## Password validation (`src/utils/validation.py`, `validate_password`) -/

/-- The fixed allow-set of special symbols from `validate_password`:
`special_sym = ["!", "@", "#", "$", "%", "^", "&", "*", "-"]`. -/
def special_sym : List Char := ['!', '@', '#', '$', '%', '^', '&', '*', '-']

/-- `48 <= ord(char) <= 57` — the digit test used in the scan loop. -/
def isDigitChar (c : Char) : Bool := decide (48 ≤ c.toNat) && decide (c.toNat ≤ 57)

/-- `65 <= ord(char) <= 90` — the uppercase test used in the scan loop. -/
def isUpperChar (c : Char) : Bool := decide (65 ≤ c.toNat) && decide (c.toNat ≤ 90)

/-- `97 <= ord(char) <= 122` — the lowercase test used in the scan loop. -/
def isLowerChar (c : Char) : Bool := decide (97 ≤ c.toNat) && decide (c.toNat ≤ 122)

/-- `char in special_sym` — the symbol test used in the scan loop. -/
def isSymbolChar (c : Char) : Bool := decide (c ∈ special_sym)

/-- The `for char in password` loop of `validate_password`: an `if/elif` chain
updating the four `has_*` flags. -/
def scanChars : List Char → Bool → Bool → Bool → Bool → Bool × Bool × Bool × Bool
  | [], d, u, l, s => (d, u, l, s)
  | c :: cs, d, u, l, s =>
    if isDigitChar c then scanChars cs true u l s
    else if isUpperChar c then scanChars cs d true l s
    else if isLowerChar c then scanChars cs d u true s
    else if isSymbolChar c then scanChars cs d u l true
    else scanChars cs d u l s

/-- `validate_password(password)` from `src/utils/validation.py`: returns
`(val, errors)` where `errors` collects one message per violated rule, in the
order the source appends them, and `val` is `True` exactly when no rule fired. -/
def validate_password (password : String) : Bool × List String :=
  let n := password.length
  let r := scanChars password.data false false false false
  let has_digit := r.1
  let has_upper := r.2.1
  let has_lower := r.2.2.1
  let has_symbol := r.2.2.2
  let errors : List String :=
    (if n < 8 then ["Password must be at least 8 characters long"] else []) ++
    (if n > 20 then ["Password should not be more than 20 characters long"] else []) ++
    (if !has_digit then ["Password must contain at least one digit"] else []) ++
    (if !has_upper then ["Password must contain at least one uppercase letter"] else []) ++
    (if !has_lower then ["Password must contain at least one lowercase letter"] else []) ++
    (if !has_symbol then ["Password must contain at least one special symbol"] else [])
  let val := !(decide (n < 8)) && !(decide (n > 20)) &&
    has_digit && has_upper && has_lower && has_symbol
  (val, errors)

/-! ## Email format (`src/utils/validation.py`, `EMAIL_REGEX` / `is_valid_format`)

`EMAIL_REGEX` is
`^[a-z0-9!#$%&'*+/=?^_β{|}~-]+(?:\.[a-z0-9...]+)*@(?:[a-z0-9](?:[a-z0-9-]*[a-z0-9])?\.)+[a-z0-9](?:[a-z0-9-]*[a-z0-9])?$`
(the local-part character class is spelled by code below to keep the embedding
readable).  Because the separators `.` and `@` belong to none of the character
classes and every repeated group is non-empty, a string matches the regex
exactly when splitting it at `@` gives one local part and one domain, splitting
the local part at `.` gives non-empty runs of local-atom characters, and
splitting the domain at `.` gives at least two labels of shape
`[a-z0-9]([a-z0-9-]*[a-z0-9])?`.  `re.match` with a final `$` also accepts one
trailing newline, which `stripFinalNewline` accounts for. -/

/-- Character codes of `! # $ % & ' * + / = ? ^ _ β { | } ~ -`, the punctuation
allowed in the local part of `EMAIL_REGEX` (β stands for the backquote). -/
def specialLocalCodes : List Nat :=
  [33, 35, 36, 37, 38, 39, 42, 43, 47, 61, 63, 94, 95, 96, 123, 124, 125, 126, 45]

/-- Membership in the local-part character class `[a-z0-9!#$%&'*+/=?^_β{|}~-]`. -/
def localAtomChar (c : Char) : Bool :=
  (decide (97 ≤ c.toNat) && decide (c.toNat ≤ 122)) ||
  (decide (48 ≤ c.toNat) && decide (c.toNat ≤ 57)) ||
  decide (c.toNat ∈ specialLocalCodes)

/-- Membership in `[a-z0-9]`, the class of label start/end characters. -/
def lowerDigitChar (c : Char) : Bool :=
  (decide (97 ≤ c.toNat) && decide (c.toNat ≤ 122)) ||
  (decide (48 ≤ c.toNat) && decide (c.toNat ≤ 57))

/-- Split a character list at every occurrence of `sep` (occurrences deleted,
empty pieces kept — the counterpart of splitting a string on a separator that
the surrounding character classes exclude). -/
def splitChar (sep : Char) : List Char → List (List Char)
  | [] => [[]]
  | c :: cs =>
    match splitChar sep cs with
    | [] => if c = sep then [[], []] else [[c]]
    | p :: ps => if c = sep then [] :: p :: ps else (c :: p) :: ps

/-- A domain label, `[a-z0-9](?:[a-z0-9-]*[a-z0-9])?`: non-empty, every
character in `[a-z0-9-]`, and the first and last characters in `[a-z0-9]`. -/
def labelOk (l : List Char) : Bool :=
  !l.isEmpty &&
  l.all (fun c => lowerDigitChar c || decide (c.toNat = 45)) &&
  (match l.head? with | some c => lowerDigitChar c | none => false) &&
  (match l.getLast? with | some c => lowerDigitChar c | none => false)

/-- The local part, `atom(\.atom)*` with `atom = [localAtomChar]+`. -/
def localPartOk (l : List Char) : Bool :=
  (splitChar '.' l).all fun p => !p.isEmpty && p.all localAtomChar

/-- The domain, `(label\.)+label`: at least two dot-separated labels. -/
def domainOk (d : List Char) : Bool :=
  let ps := splitChar '.' d
  decide (2 ≤ ps.length) && ps.all labelOk

/-- `$` in Python `re` also matches just before a newline that ends the string. -/
def stripFinalNewline (cs : List Char) : List Char :=
  if cs.getLast? = some '\n' then cs.dropLast else cs

/-- `is_valid_format(email)` from `src/utils/validation.py` (the same function
is duplicated in `src/utils/validate_email.py`): `re.match(EMAIL_REGEX, email)
is not None`. -/
def is_valid_format (email : String) : Bool :=
  match splitChar '@' (stripFinalNewline email.data) with
  | [l, d] => localPartOk l && domainOk d
  | _ => false

/-- `validate_email_address(email, check_mx, debug)` from
`src/utils/validation.py`.  The `email_validator` library call (which raises
`EmailNotValidError` on a bad address, caught and folded to `False`) is the
oracle `emailValidatorOk`; `get_mx_records` (DNS, with `DNSException` folded to
`None` inside) is the oracle `mxRecords`.  `if not get_mx_records(domain)`
treats both `None` and an empty record list as falsy. -/
def validate_email_address (emailValidatorOk : String → Bool)
    (mxRecords : String → Option (List String)) (check_mx : Bool)
    (email : String) : Bool :=
  if !is_valid_format email then false
  else if !emailValidatorOk email then false
  else if check_mx then
    match mxRecords ((email.splitOn "@").getD 1 "") with
    | some records => !records.isEmpty
    | none => false
  else true

/-! ## Password hashing (`src/app/models/user_model.py`, bcrypt)

`User.check_password` is `bcrypt.checkpw(password.encode(), self.password_hash.encode())`
with no exception handling.  The bcrypt library raises `ValueError("Invalid salt")`
when the stored hash is not a well-formed bcrypt hash string; on a well-formed
hash it returns the boolean outcome of the (salted, constant-time) comparison,
which we abstract as the oracle `matchesOracle`.  Raising is embedded as
`Except.error`. -/

/-- A well-formed bcrypt hash string: 60 characters starting with a `$2x$`
version prefix (the shape `bcrypt.hashpw` produces and `bcrypt.checkpw`
requires; anything else makes `checkpw` raise). -/
def isBcryptHash (hash : String) : Bool :=
  decide (hash.length = 60) &&
  (decide (hash.take 4 = "$2b$") || decide (hash.take 4 = "$2a$") ||
   decide (hash.take 4 = "$2y$"))

/-- Model of `bcrypt.checkpw(password, hashed)`: raises (`Except.error`) on a
malformed stored hash, otherwise returns the comparison outcome. -/
def bcrypt_checkpw (matchesOracle : String → String → Bool)
    (password hashed : String) : Except String Bool :=
  if isBcryptHash hashed then Except.ok (matchesOracle password hashed)
  else Except.error "Invalid salt"

/-- `User.check_password(self, password)` from `src/app/models/user_model.py`:
`return bcrypt.checkpw(password.encode("utf-8"), self.password_hash.encode("utf-8"))` —
the bare library call, with no `try/except`, so a library error propagates to
the caller. -/
def check_password (matchesOracle : String → String → Bool)
    (password_hash password : String) : Except String Bool :=
  bcrypt_checkpw matchesOracle password password_hash

/-! ## Tokens (`src/utils/jwt_utils.py`, PyJWT) -/

/-- The payload both issuance functions encode: `{"user_id": ..., "exp": ...}`.
`exp` is an absolute timestamp in seconds. -/
structure Payload where
  user_id : Nat
  exp : Int
deriving DecidableEq, Repr

/-- A token as seen by `jwt.decode`: either a well-formed JWT carrying a payload
and signed with some key, or a string that is not a valid JWT at all. -/
inductive Token where
  | signed (payload : Payload) (key : String)
  | malformed (raw : String)
deriving DecidableEq, Repr

/-- The two PyJWT failure classes the code distinguishes. -/
inductive JwtError where
  | expiredSignature
  | invalidToken
deriving DecidableEq, Repr

/-- Model of `jwt.decode(token, SECRET_KEY, algorithms=["HS256"])` at time
`now` (integer seconds): signature verification first (failure raises
`InvalidTokenError`, as does a malformed token), then the `exp` claim check —
PyJWT raises `ExpiredSignatureError` when `exp <= now` (second granularity,
zero leeway), so exactly-at-expiry is expired. -/
def jwtDecode (key : String) (tok : Token) (now : Int) : Except JwtError Payload :=
  match tok with
  | Token.malformed _ => Except.error JwtError.invalidToken
  | Token.signed p k =>
    if k ≠ key then Except.error JwtError.invalidToken
    else if p.exp ≤ now then Except.error JwtError.expiredSignature
    else Except.ok p

/-- `generate_token(user_id, expires_in=3600)` from `src/utils/jwt_utils.py`:
signs `{"user_id": user_id, "exp": now + expires_in}` with the secret key. -/
def generate_token (key : String) (user_id : Nat) (expires_in : Int)
    (now : Int) : Token :=
  Token.signed { user_id := user_id, exp := now + expires_in } key

/-- `generate_refresh_token(user_id)`: same payload shape, 7-day expiry. -/
def generate_refresh_token (key : String) (user_id : Nat) (now : Int) : Token :=
  Token.signed { user_id := user_id, exp := now + 7 * 24 * 60 * 60 } key

/-- `verify_token(token)` from `src/utils/jwt_utils.py`: `jwt.decode` with both
`ExpiredSignatureError` and `InvalidTokenError` caught and folded to `None`.
Note it consults nothing but the token itself — in particular not `blacklist`. -/
def verify_token (key : String) (tok : Token) (now : Int) : Option Payload :=
  match jwtDecode key tok now with
  | Except.ok p => some p
  | Except.error _ => none

/-- Outcome of the `token_required` gate (`src/utils/jwt_utils.py`): each
rejection constructor corresponds to one early-return response of the
decorator, `ok` to calling the wrapped handler with `current_user`. -/
inductive GateResult where
  | missing        -- 403 "Token is missing!"
  | blacklisted    -- 403 "Token has been blacklisted!"
  | userNotFound   -- 404 "User not found!"
  | expired        -- 403 "Token has expired!"
  | invalid        -- 403 "Token is invalid!"
  | ok (user_id : Nat)
deriving DecidableEq, Repr

/-- The `token_required` decorator body: extract the bearer token (already
resolved to `tok` here), 403 if absent; `jwt.decode` (expired → 403, invalid →
403); then the blacklist membership check; then the user lookup (404 if the
subject is unknown); otherwise run the handler as `current_user`. -/
def token_required (key : String) (blacklist : List Token) (userIds : List Nat)
    (tok : Option Token) (now : Int) : GateResult :=
  match tok with
  | none => GateResult.missing
  | some t =>
    match jwtDecode key t now with
    | Except.error JwtError.expiredSignature => GateResult.expired
    | Except.error JwtError.invalidToken => GateResult.invalid
    | Except.ok data =>
      if t ∈ blacklist then GateResult.blacklisted
      else if data.user_id ∈ userIds then GateResult.ok data.user_id
      else GateResult.userNotFound

/-! ## Auth routes (`src/app/api/auth_routes.py`) -/

/-- A row of the `users` table (`src/app/models/user_model.py`). -/
structure RegUser where
  id : Nat
  username : String
  email : String
  password_hash : String
  role : String
deriving DecidableEq, Repr

/-- The JSON body of a `POST /signup` request; a missing key is `none`. -/
structure SignupRequest where
  username : Option String
  email : Option String
  password : Option String
deriving DecidableEq, Repr

/-- An HTTP response as far as the claims are concerned: the actual HTTP status
code of the response, and the value of a `status` field embedded in the JSON
body when the handler writes one (Flask's `jsonify(...)` without a second tuple
element sends HTTP 200 whatever the body says). -/
structure HttpResponse where
  http_status : Nat
  body_status : Option Nat
deriving DecidableEq, Repr

/-- `sign_up()` from `src/app/api/auth_routes.py`.  Inputs: `emailOk` is the
outcome of `validate_email_address(data["email"], check_mx=True)` (network
effects abstracted), `hashFn` the bcrypt hash made by `User.__init__`, `key`
the signing secret, `now` the clock, `nextId` the autoincrement id the store
would assign, `store` the user table, `req` the parsed JSON body (`none` for a
missing/empty body).  Output: the response, the user table afterwards, and the
token pair issued (if any).

Faithful quirk: the missing-fields branch is `return jsonify(status=400, ...)`
with no status tuple, so its HTTP status is 200 and only the body carries 400. -/
def sign_up (emailOk : String → Bool) (hashFn : String → String) (key : String)
    (now : Int) (nextId : Nat) (store : List RegUser) (req : Option SignupRequest) :
    HttpResponse × List RegUser × Option (Token × Token) :=
  match req with
  | none => (⟨200, some 400⟩, store, none)
  | some data =>
    match data.username, data.email, data.password with
    | some username, some email, some password =>
      if !emailOk email then (⟨400, some 400⟩, store, none)
      else if !(validate_password password).1 then (⟨400, none⟩, store, none)
      else if store.any (fun u => u.username = username) ||
              store.any (fun u => u.email = email) then
        (⟨400, some 400⟩, store, none)
      else
        let new_user : RegUser := ⟨nextId, username, email, hashFn password, "user"⟩
        let access := generate_token key nextId 3600 now
        let refresh := generate_refresh_token key nextId now
        (⟨201, none⟩, store ++ [new_user], some (access, refresh))
    | _, _, _ => (⟨200, some 400⟩, store, none)

/-- `refresh_token()` from `src/app/api/auth_routes.py`: 400 if the body has no
refresh token; `jwt.decode` with `ExpiredSignatureError` → 401 and
`InvalidTokenError` → 403; look up the subject, 401 if absent; otherwise mint a
fresh access token and respond 200.  Returns the status code and the newly
minted access token (if any). -/
def refresh_route (key : String) (userIds : List Nat) (tok : Option Token)
    (now : Int) : Nat × Option Token :=
  match tok with
  | none => (400, none)
  | some t =>
    match jwtDecode key t now with
    | Except.error JwtError.expiredSignature => (401, none)
    | Except.error JwtError.invalidToken => (403, none)
    | Except.ok payload =>
      if payload.user_id ∈ userIds then
        (200, some (generate_token key payload.user_id 3600 now))
      else (401, none)

/-! ## The whole system, for the blacklist invariant -/

/-- The JSON body of `POST /change_password` (`src/app/api/profile_routes.py`). -/
structure ChangePwRequest where
  password : Option String
  new_password : Option String
  confirm_new_password : Option String
deriving DecidableEq, Repr

/-- The body of `change_password(current_user)` after the gate: returns the new
password hash when the update goes through, `none` when any check fails (the
stored-hash comparison is the oracle `cpw`, the re-hash is `hashFn`). -/
def change_password_core (cpw : String → String → Bool) (hashFn : String → String)
    (user : RegUser) (req : Option ChangePwRequest) : Option String :=
  match req with
  | none => none
  | some data =>
    match data.password, data.new_password, data.confirm_new_password with
    | some password, some new_password, some _ =>
      if !cpw password user.password_hash then none
      else if !(validate_password new_password).1 then none
      else if cpw new_password user.password_hash then none
      else some (hashFn new_password)
    | _, _, _ => none

/-- Mutable process state the routes touch: the `users` table (with its
autoincrement counter) and the module-level `blacklist` set of
`src/utils/jwt_utils.py` (kept as a list; only membership matters). -/
structure SysState where
  users : List RegUser
  nextId : Nat
  blacklist : List Token
deriving Repr

/-- One incoming HTTP request, carrying its body and the outcomes of the
effectful collaborators the handler would consult. -/
inductive Request where
  | signup (emailOk : String → Bool) (hashFn : String → String)
      (body : Option SignupRequest)
  | signin (identifier password : String) (cpw : String → String → Bool)
  | refresh (body : Option Token)
  | logout (auth : Option Token)
  | change_password (auth : Option Token) (body : Option ChangePwRequest)
      (cpw : String → String → Bool) (hashFn : String → String)

/-- The state transition each route performs (`src/app/api/auth_routes.py`,
`src/app/api/profile_routes.py`): `sign_up` may insert a user; `sign_in` and
`refresh_token` only read; `logout` runs behind `token_required` and, when the
gate passes, adds the bearer token to `blacklist`; `change_password` may
replace one user's `password_hash`.  No route ever removes a blacklist entry. -/
def applyRequest (key : String) (now : Int) : Request → SysState → SysState
  | Request.signup emailOk hashFn body, s =>
    let r := sign_up emailOk hashFn key now s.nextId s.users body
    { s with users := r.2.1, nextId := if r.2.2.isSome then s.nextId + 1 else s.nextId }
  | Request.signin _ _ _, s => s
  | Request.refresh _, s => s
  | Request.logout auth, s =>
    match auth with
    | none => s
    | some t =>
      match token_required key s.blacklist (s.users.map RegUser.id) (some t) now with
      | GateResult.ok _ => { s with blacklist := s.blacklist ++ [t] }
      | _ => s
  | Request.change_password auth body cpw hashFn, s =>
    match token_required key s.blacklist (s.users.map RegUser.id) auth now with
    | GateResult.ok uid =>
      match s.users.find? (fun u => u.id = uid) with
      | some u =>
        match change_password_core cpw hashFn u body with
        | some newHash =>
          { s with users := s.users.map fun v =>
              if v.id = uid then { v with password_hash := newHash } else v }
        | none => s
      | none => s
    | _ => s

/-! ## Helper lemmas -/

/-- Closed form of `verify_token` success: the payload comes back exactly when
the token is signed with the service's key and its expiry is still in the
future. -/
lemma verify_token_eq_some (key : String) (tok : Token) (now : Int) (p : Payload) :
    verify_token key tok now = some p ↔
      tok = Token.signed p key ∧ now < p.exp := by
  cases tok with
  | malformed raw => simp [verify_token, jwtDecode]
  | signed q k =>
    by_cases hk : k = key
    · subst hk
      by_cases he : q.exp ≤ now
      · simp only [verify_token, jwtDecode, ne_eq, not_true_eq_false, if_false,
          if_pos he]
        constructor
        · intro h; exact absurd h (by simp)
        · rintro ⟨h, hlt⟩
          cases h
          omega
      · simp only [verify_token, jwtDecode, ne_eq, not_true_eq_false, if_false,
          if_neg he, Option.some.injEq, Token.signed.injEq, and_true]
        constructor
        · rintro rfl; exact ⟨rfl, by omega⟩
        · rintro ⟨rfl, _⟩; rfl
    · simp only [verify_token, jwtDecode, ne_eq, hk, not_false_eq_true, if_true]
      constructor
      · intro h; exact absurd h (by simp)
      · rintro ⟨h, _⟩
        cases h
        exact absurd rfl hk

/-! ## C1 -/

/-- C1 (counterexample): a token that is present in the revocation registry but
signed with the right key and unexpired is still accepted by `verify_token`
(which never consults `blacklist`), so "for every token present in the
registry, verification does not succeed" is false of the code. -/
theorem verify_token_ignores_blacklist :
    Token.signed ⟨1, 100⟩ "k" ∈ [Token.signed ⟨1, 100⟩ "k"] ∧
    verify_token "k" (Token.signed ⟨1, 100⟩ "k") 0 = some ⟨1, 100⟩ :=
  ⟨List.mem_singleton.mpr rfl, rfl⟩

/-- C1 (amended): `verify_token` returns the decoded payload iff the token's
signature verifies against the secret key and its expiry is in the future — the
revocation registry is not checked by `verify_token`; the revocation check
lives only in the `token_required` gate, which rejects any blacklisted token
that decodes successfully. -/
theorem verify_token_characterization (key : String) (tok : Token) (now : Int) :
    (∀ p : Payload, verify_token key tok now = some p ↔
        tok = Token.signed p key ∧ now < p.exp) ∧
    (∀ (bl : List Token) (userIds : List Nat), tok ∈ bl →
        (∃ p, jwtDecode key tok now = Except.ok p) →
        token_required key bl userIds (some tok) now = GateResult.blacklisted) := by
  refine ⟨fun p => verify_token_eq_some key tok now p, ?_⟩
  rintro bl userIds hbl ⟨p, hp⟩
  simp [token_required, hp, hbl]

/-- C1 (witness for the amended theorem). -/
theorem verify_token_characterization_witness :
    verify_token "k" (Token.signed ⟨2, 50⟩ "k") 10 = some ⟨2, 50⟩ ∧
    token_required "k" [Token.signed ⟨2, 50⟩ "k"] [2]
      (some (Token.signed ⟨2, 50⟩ "k")) 10 = GateResult.blacklisted := by
  constructor
  · exact ((verify_token_characterization "k" (Token.signed ⟨2, 50⟩ "k") 10).1
      ⟨2, 50⟩).mpr ⟨rfl, by decide⟩
  · exact (verify_token_characterization "k" (Token.signed ⟨2, 50⟩ "k") 10).2
      [Token.signed ⟨2, 50⟩ "k"] [2] (List.mem_singleton.mpr rfl) ⟨⟨2, 50⟩, rfl⟩

/-! ## C2 -/

/-- C2 (counterexample): on a malformed stored hash, `check_password` does not
return `false` — it propagates the bcrypt error (`ValueError("Invalid salt")`,
modelled as `Except.error`), since the source wraps the `bcrypt.checkpw` call
in no `try/except`. -/
theorem check_password_malformed_hash_raises :
    check_password (fun _ _ => false) "not-a-bcrypt-hash" "pw" =
      Except.error "Invalid salt" ∧
    check_password (fun _ _ => false) "not-a-bcrypt-hash" "pw" ≠
      Except.ok false := by
  refine ⟨rfl, fun h => ?_⟩
  rw [show check_password (fun _ _ => false) "not-a-bcrypt-hash" "pw" =
      Except.error "Invalid salt" from rfl] at h
  exact Except.noConfusion h

/-- C2 (amended): on every malformed stored hash, `check_password` raises (the
library error propagates to the caller) rather than returning `false`; a
boolean comes back only for well-formed bcrypt hashes. -/
theorem check_password_propagates_on_malformed
    (matchesOracle : String → String → Bool) (password_hash password : String)
    (h : isBcryptHash password_hash = false) :
    check_password matchesOracle password_hash password =
      Except.error "Invalid salt" := by
  simp [check_password, bcrypt_checkpw, h]

/-- C2 (witness for the amended theorem). -/
theorem check_password_propagates_on_malformed_witness :
    isBcryptHash "not-a-bcrypt-hash" = false ∧
    check_password (fun _ _ => true) "not-a-bcrypt-hash" "pw" =
      Except.error "Invalid salt" :=
  ⟨by decide, check_password_propagates_on_malformed (fun _ _ => true)
    "not-a-bcrypt-hash" "pw" (by decide)⟩

/-! ## C3 -/

/-- C3: a sign-up request whose body lacks the `password` field is answered by
`return jsonify(status=400, ...)` with no HTTP status attached, so Flask sends
the response with HTTP status 200 — the 400 appears only as a field of the JSON
body — though indeed no user is created and no tokens are issued.  This
contradicts both the spec and the handler's own docstring ("If validation
fails ... it returns a 400 status code"). -/
theorem sign_up_missing_field_http_200 :
    sign_up (fun _ => true) (fun h => h) "k" 0 1 []
      (some ⟨some "alice", some "alice@example.com", none⟩) =
    (⟨200, some 400⟩, [], none) := rfl

/-! ## C5 -/

/-- C5: token expiry is an exclusive boundary at second granularity: a token
generated to expire at `now0 + expires_in` verifies successfully at every time
strictly before that instant, and at every time greater than or equal to it the
decode raises `ExpiredSignatureError` (so verification returns nothing) — a
token whose expiry equals "now" is already expired. -/
theorem token_expiry_boundary (key : String) (uid : Nat)
    (expires_in now0 now : Int) :
    (now < now0 + expires_in →
      verify_token key (generate_token key uid expires_in now0) now =
        some ⟨uid, now0 + expires_in⟩) ∧
    (now0 + expires_in ≤ now →
      jwtDecode key (generate_token key uid expires_in now0) now =
        Except.error JwtError.expiredSignature ∧
      verify_token key (generate_token key uid expires_in now0) now = none) := by
  constructor
  · intro h
    exact (verify_token_eq_some key _ now ⟨uid, now0 + expires_in⟩).mpr ⟨rfl, h⟩
  · intro h
    have hd : jwtDecode key (generate_token key uid expires_in now0) now =
        Except.error JwtError.expiredSignature := by
      simp [generate_token, jwtDecode, h]
    exact ⟨hd, by simp [verify_token, hd]⟩

/-- C5 (witness): with `exp = 0 + 10`, time 9 verifies and time 10 (exactly at
expiry) is rejected as expired. -/
theorem token_expiry_boundary_witness :
    verify_token "k" (generate_token "k" 7 10 0) 9 = some ⟨7, 0 + 10⟩ ∧
    (jwtDecode "k" (generate_token "k" 7 10 0) 10 =
        Except.error JwtError.expiredSignature ∧
      verify_token "k" (generate_token "k" 7 10 0) 10 = none) :=
  ⟨(token_expiry_boundary "k" 7 10 0 9).1 (by decide),
   (token_expiry_boundary "k" 7 10 0 10).2 (by decide)⟩

/-! ## C6 -/

/-- C6: a sign-up request (all three fields supplied) whose username or email
already exists in the user store is answered with HTTP 400, the store is left
unchanged, and no tokens are issued. -/
theorem sign_up_duplicate_rejected (emailOk : String → Bool)
    (hashFn : String → String) (key : String) (now : Int) (nextId : Nat)
    (store : List RegUser) (username email password : String)
    (hdup : (store.any fun u => u.username = username) = true ∨
            (store.any fun u => u.email = email) = true) :
    (sign_up emailOk hashFn key now nextId store
        (some ⟨some username, some email, some password⟩)).1.http_status = 400 ∧
    (sign_up emailOk hashFn key now nextId store
        (some ⟨some username, some email, some password⟩)).2.1 = store ∧
    (sign_up emailOk hashFn key now nextId store
        (some ⟨some username, some email, some password⟩)).2.2 = none := by
  simp only [sign_up]
  split_ifs with h1 h2 h3
  · exact ⟨rfl, rfl, rfl⟩
  · exact ⟨rfl, rfl, rfl⟩
  · exact ⟨rfl, rfl, rfl⟩
  · exfalso
    rcases hdup with h | h <;> simp [h] at h3

/-- C6 (witness): signing up a second "alice" against a store already holding
one leaves the store unchanged, issues nothing, and answers 400. -/
theorem sign_up_duplicate_rejected_witness :
    (sign_up (fun _ => true) (fun h => h) "k" 0 2
        [⟨1, "alice", "alice@example.com", "hash", "user"⟩]
        (some ⟨some "alice", some "new@example.com", some "GoodPass1!"⟩)).1.http_status
        = 400 ∧
    (sign_up (fun _ => true) (fun h => h) "k" 0 2
        [⟨1, "alice", "alice@example.com", "hash", "user"⟩]
        (some ⟨some "alice", some "new@example.com", some "GoodPass1!"⟩)).2.1 =
      [⟨1, "alice", "alice@example.com", "hash", "user"⟩] ∧
    (sign_up (fun _ => true) (fun h => h) "k" 0 2
        [⟨1, "alice", "alice@example.com", "hash", "user"⟩]
        (some ⟨some "alice", some "new@example.com", some "GoodPass1!"⟩)).2.2 =
      none :=
  sign_up_duplicate_rejected (fun _ => true) (fun h => h) "k" 0 2
    [⟨1, "alice", "alice@example.com", "hash", "user"⟩]
    "alice" "new@example.com" "GoodPass1!" (Or.inl (by decide))

/-! ## C7 -/

/-- C7: the refresh route answers 401 on an expired refresh token, 403 on a
malformed token or one signed with the wrong key, and 401 when the token's
subject is not in the user store — and in every one of these failure cases no
new access token is minted. -/
theorem refresh_failures (key : String) (userIds : List Nat) (now : Int) :
    (∀ p : Payload, p.exp ≤ now →
        refresh_route key userIds (some (Token.signed p key)) now = (401, none)) ∧
    (∀ raw : String,
        refresh_route key userIds (some (Token.malformed raw)) now = (403, none)) ∧
    (∀ (p : Payload) (k : String), k ≠ key →
        refresh_route key userIds (some (Token.signed p k)) now = (403, none)) ∧
    (∀ p : Payload, now < p.exp → p.user_id ∉ userIds →
        refresh_route key userIds (some (Token.signed p key)) now = (401, none)) := by
  refine ⟨fun p hp => ?_, fun raw => rfl, fun p k hk => ?_, fun p hp hu => ?_⟩
  · simp [refresh_route, jwtDecode, hp]
  · simp [refresh_route, jwtDecode, hk]
  · have hne : ¬p.exp ≤ now := by omega
    simp [refresh_route, jwtDecode, hne, hu]

/-- C7 (witness): each failure shape at a concrete input. -/
theorem refresh_failures_witness :
    refresh_route "k" [] (some (Token.signed ⟨1, 5⟩ "k")) 10 = (401, none) ∧
    refresh_route "k" [] (some (Token.malformed "junk")) 10 = (403, none) ∧
    refresh_route "k" [] (some (Token.signed ⟨1, 99⟩ "other")) 10 = (403, none) ∧
    refresh_route "k" [] (some (Token.signed ⟨1, 99⟩ "k")) 10 = (401, none) :=
  ⟨(refresh_failures "k" [] 10).1 ⟨1, 5⟩ (by decide),
   (refresh_failures "k" [] 10).2.1 "junk",
   (refresh_failures "k" [] 10).2.2.1 ⟨1, 99⟩ "other" (by decide),
   (refresh_failures "k" [] 10).2.2.2 ⟨1, 99⟩ (by decide) (by decide)⟩

/-! ## C4 -/

/-- C4 (counterexample): `validate_password "short1A!"` is accepted — the
string has exactly 8 characters and contains a digit, an uppercase letter, a
lowercase letter and an allowed symbol — so the claimed rejection with a
minimum-length error is false of the code. -/
theorem validate_password_short1A_accepted :
    validate_password "short1A!" = (true, []) := by decide

/-- C4 (amended): both example passwords are accepted: `"short1A!"` (exactly
8 characters, meeting every rule) and `"GoodPass1!"` each validate with
`ok = true` and an empty error list. -/
theorem validate_password_examples :
    validate_password "short1A!" = (true, []) ∧
    validate_password "GoodPass1!" = (true, []) :=
  ⟨by decide, by decide⟩

/-! ## C8: full characterization of `validate_password` -/

/-- Characters of the symbol allow-set are neither digits nor letters. -/
lemma symbol_class (c : Char) (h : isSymbolChar c = true) :
    isDigitChar c = false ∧ isUpperChar c = false ∧ isLowerChar c = false := by
  have hm : c ∈ special_sym := of_decide_eq_true h
  simp only [special_sym, List.mem_cons, List.not_mem_nil, or_false] at hm
  rcases hm with rfl | rfl | rfl | rfl | rfl | rfl | rfl | rfl | rfl <;> decide

/-- A digit matches none of the later tests of the `elif` chain. -/
lemma digit_excl (c : Char) (h : isDigitChar c = true) :
    isUpperChar c = false ∧ isLowerChar c = false ∧ isSymbolChar c = false := by
  have hn : 48 ≤ c.toNat ∧ c.toNat ≤ 57 := by
    simpa [isDigitChar] using h
  refine ⟨?_, ?_, ?_⟩
  · simp only [isUpperChar]
    rw [decide_eq_false (by omega : ¬(65 : Nat) ≤ c.toNat), Bool.false_and]
  · simp only [isLowerChar]
    rw [decide_eq_false (by omega : ¬(97 : Nat) ≤ c.toNat), Bool.false_and]
  · cases hs : isSymbolChar c
    · rfl
    · exact absurd h (by simp [(symbol_class c hs).1])

/-- An uppercase letter matches none of the later tests of the `elif` chain. -/
lemma upper_excl (c : Char) (h : isUpperChar c = true) :
    isLowerChar c = false ∧ isSymbolChar c = false := by
  have hn : 65 ≤ c.toNat ∧ c.toNat ≤ 90 := by
    simpa [isUpperChar] using h
  constructor
  · simp only [isLowerChar]
    rw [decide_eq_false (by omega : ¬(97 : Nat) ≤ c.toNat), Bool.false_and]
  · cases hs : isSymbolChar c
    · rfl
    · exact absurd h (by simp [(symbol_class c hs).2.1])

/-- A lowercase letter is not in the symbol allow-set. -/
lemma lower_excl (c : Char) (h : isLowerChar c = true) : isSymbolChar c = false := by
  cases hs : isSymbolChar c
  · rfl
  · exact absurd h (by simp [(symbol_class c hs).2.2])

/-- The scan loop computes exactly the four per-class `any`s: the `elif` chain
loses nothing because the four character classes are pairwise disjoint. -/
lemma scanChars_eq (cs : List Char) (d u l s : Bool) :
    scanChars cs d u l s =
      (d || cs.any isDigitChar, u || cs.any isUpperChar,
       l || cs.any isLowerChar, s || cs.any isSymbolChar) := by
  induction cs generalizing d u l s with
  | nil => simp [scanChars]
  | cons c cs ih =>
    by_cases h1 : isDigitChar c = true
    · obtain ⟨e1, e2, e3⟩ := digit_excl c h1
      simp [scanChars, h1, e1, e2, e3, ih]
    · have f1 : isDigitChar c = false := by simpa using h1
      by_cases h2 : isUpperChar c = true
      · obtain ⟨e2, e3⟩ := upper_excl c h2
        simp [scanChars, f1, h2, e2, e3, ih]
      · have f2 : isUpperChar c = false := by simpa using h2
        by_cases h3 : isLowerChar c = true
        · simp [scanChars, f1, f2, h3, lower_excl c h3, ih]
        · have f3 : isLowerChar c = false := by simpa using h3
          by_cases h4 : isSymbolChar c = true
          · simp [scanChars, f1, f2, f3, h4, ih]
          · have f4 : isSymbolChar c = false := by simpa using h4
            simp [scanChars, f1, f2, f3, f4, ih]

/-- Closed form of `validate_password` in terms of per-class `any`s. -/
lemma validate_password_closed (p : String) :
    validate_password p =
      (!decide (p.length < 8) && !decide (p.length > 20) &&
        p.data.any isDigitChar && p.data.any isUpperChar &&
        p.data.any isLowerChar && p.data.any isSymbolChar,
       (if p.length < 8 then
          ["Password must be at least 8 characters long"] else []) ++
       (if p.length > 20 then
          ["Password should not be more than 20 characters long"] else []) ++
       (if !p.data.any isDigitChar then
          ["Password must contain at least one digit"] else []) ++
       (if !p.data.any isUpperChar then
          ["Password must contain at least one uppercase letter"] else []) ++
       (if !p.data.any isLowerChar then
          ["Password must contain at least one lowercase letter"] else []) ++
       (if !p.data.any isSymbolChar then
          ["Password must contain at least one special symbol"] else [])) := by
  simp only [validate_password, scanChars_eq, Bool.false_or]

/-- Membership in a conditional singleton. -/
lemma mem_optErr (a x : String) (c : Prop) [Decidable c] :
    a ∈ (if c then [x] else ([] : List String)) ↔ c ∧ a = x := by
  split <;> simp_all

/-- A conditional singleton is a sublist of the singleton. -/
lemma optErr_sublist (c : Prop) [Decidable c] (x : String) :
    (if c then [x] else ([] : List String)).Sublist [x] := by
  split
  · exact List.Sublist.refl _
  · exact List.nil_sublist _

/-- C8: `validate_password` accepts exactly the passwords of length 8–20 that
contain a digit, an uppercase letter, a lowercase letter and a symbol from the
allow-set; on rejection the error list names every violated rule — one entry
per rule, never short-circuited — and nothing else.  (As embedded, the function
is a pure function of the password, hence deterministic and side-effect-free.) -/
theorem validate_password_spec (p : String) :
    ((validate_password p).1 = true ↔
      (8 ≤ p.length ∧ p.length ≤ 20 ∧
        (∃ c ∈ p.data, 48 ≤ c.toNat ∧ c.toNat ≤ 57) ∧
        (∃ c ∈ p.data, 65 ≤ c.toNat ∧ c.toNat ≤ 90) ∧
        (∃ c ∈ p.data, 97 ≤ c.toNat ∧ c.toNat ≤ 122) ∧
        (∃ c ∈ p.data, c ∈ special_sym))) ∧
    (validate_password p).2.Nodup ∧
    ("Password must be at least 8 characters long" ∈ (validate_password p).2 ↔
      p.length < 8) ∧
    ("Password should not be more than 20 characters long" ∈ (validate_password p).2 ↔
      20 < p.length) ∧
    ("Password must contain at least one digit" ∈ (validate_password p).2 ↔
      ¬∃ c ∈ p.data, 48 ≤ c.toNat ∧ c.toNat ≤ 57) ∧
    ("Password must contain at least one uppercase letter" ∈ (validate_password p).2 ↔
      ¬∃ c ∈ p.data, 65 ≤ c.toNat ∧ c.toNat ≤ 90) ∧
    ("Password must contain at least one lowercase letter" ∈ (validate_password p).2 ↔
      ¬∃ c ∈ p.data, 97 ≤ c.toNat ∧ c.toNat ≤ 122) ∧
    ("Password must contain at least one special symbol" ∈ (validate_password p).2 ↔
      ¬∃ c ∈ p.data, c ∈ special_sym) := by
  rw [validate_password_closed]
  refine ⟨?_, ?_, ?_, ?_, ?_, ?_, ?_, ?_⟩
  · simp [Bool.and_eq_true, Bool.not_eq_true', decide_eq_false_iff_not,
      List.any_eq_true, isDigitChar, isUpperChar, isLowerChar, isSymbolChar,
      Nat.not_lt, and_assoc]
  · exact (by decide :
      (["Password must be at least 8 characters long",
        "Password should not be more than 20 characters long",
        "Password must contain at least one digit",
        "Password must contain at least one uppercase letter",
        "Password must contain at least one lowercase letter",
        "Password must contain at least one special symbol"] :
          List String).Nodup).sublist
      (((((optErr_sublist _ _).append (optErr_sublist _ _)).append
        (optErr_sublist _ _)).append (optErr_sublist _ _)).append
          (optErr_sublist _ _) |>.append (optErr_sublist _ _))
  · simp [List.mem_append, mem_optErr]
  · simp [List.mem_append, mem_optErr]
  · simp [List.mem_append, mem_optErr, List.any_eq_true, isDigitChar]
  · simp [List.mem_append, mem_optErr, List.any_eq_true, isUpperChar]
  · simp [List.mem_append, mem_optErr, List.any_eq_true, isLowerChar]
  · simp [List.mem_append, mem_optErr, List.any_eq_true, isSymbolChar]

/-! ## C10: the blacklist is append-only -/

/-- `change_password` never touches the blacklist, whichever branch runs. -/
lemma applyRequest_change_password_blacklist (key : String) (now : Int)
    (auth : Option Token) (body : Option ChangePwRequest)
    (cpw : String → String → Bool) (hashFn : String → String) (s : SysState) :
    (applyRequest key now (Request.change_password auth body cpw hashFn) s).blacklist
      = s.blacklist := by
  simp only [applyRequest]
  split <;> first
    | rfl
    | (split <;> first
        | rfl
        | (split <;> rfl))

/-- C10: blacklist membership is monotone across every operation of the system
— every entry survives every request — and a new entry appears only when a
logout request adds its own bearer token; no operation removes an entry. -/
theorem blacklist_append_only (key : String) (now : Int) (r : Request)
    (s : SysState) :
    (∀ t, t ∈ s.blacklist → t ∈ (applyRequest key now r s).blacklist) ∧
    (∀ t, t ∈ (applyRequest key now r s).blacklist →
      t ∈ s.blacklist ∨ r = Request.logout (some t)) := by
  cases r with
  | signup emailOk hashFn body => exact ⟨fun t h => h, fun t h => Or.inl h⟩
  | signin a b c => exact ⟨fun t h => h, fun t h => Or.inl h⟩
  | refresh body => exact ⟨fun t h => h, fun t h => Or.inl h⟩
  | change_password auth body cpw hashFn =>
    rw [applyRequest_change_password_blacklist]
    exact ⟨fun t h => h, fun t h => Or.inl h⟩
  | logout auth =>
    cases auth with
    | none => exact ⟨fun t h => h, fun t h => Or.inl h⟩
    | some tk =>
      simp only [applyRequest]
      split
      · refine ⟨fun t h => List.mem_append.mpr (Or.inl h), fun t h => ?_⟩
        rcases List.mem_append.mp h with h' | h'
        · exact Or.inl h'
        · rcases List.mem_singleton.mp h' with rfl
          exact Or.inr rfl
      · exact ⟨fun t h => h, fun t h => Or.inl h⟩

/-- C10 (witness): a concrete blacklist entry survives a concrete request. -/
theorem blacklist_append_only_witness :
    Token.malformed "x" ∈
      (applyRequest "k" 0 (Request.refresh none)
        ⟨[], 1, [Token.malformed "x"]⟩).blacklist ∧
    (Token.malformed "x" ∈ ([Token.malformed "x"] : List Token) ∨
      Request.refresh none = Request.logout (some (Token.malformed "x"))) := by
  have h1 := (blacklist_append_only "k" 0 (Request.refresh none)
      ⟨[], 1, [Token.malformed "x"]⟩).1
    (Token.malformed "x") (List.mem_singleton.mpr rfl)
  exact ⟨h1, (blacklist_append_only "k" 0 (Request.refresh none)
      ⟨[], 1, [Token.malformed "x"]⟩).2 (Token.malformed "x") h1⟩

/-! ## C9: the email regex admits no uppercase letter -/

/-- Every character of the input is either the separator or sits in one of the
pieces `splitChar` produces. -/
lemma splitChar_mem (sep : Char) (cs : List Char) (c : Char) (hc : c ∈ cs) :
    c = sep ∨ ∃ p ∈ splitChar sep cs, c ∈ p := by
  induction cs with
  | nil => cases hc
  | cons x xs ih =>
    rcases List.mem_cons.mp hc with rfl | hx
    · by_cases hs : c = sep
      · exact Or.inl hs
      · right
        simp only [splitChar]
        cases h : splitChar sep xs with
        | nil => exact ⟨[c], by simp [hs]⟩
        | cons p ps => exact ⟨c :: p, by simp [hs]⟩
    · rcases ih hx with h | ⟨p, hp, hcp⟩
      · exact Or.inl h
      · right
        simp only [splitChar]
        cases h : splitChar sep xs with
        | nil => rw [h] at hp; cases hp
        | cons q qs =>
          rw [h] at hp
          by_cases hx' : x = sep
          · simp only [if_pos hx']
            exact ⟨p, List.mem_cons_of_mem _ hp, hcp⟩
          · simp only [if_neg hx']
            rcases List.mem_cons.mp hp with rfl | hpq
            · exact ⟨x :: p, List.mem_cons_self _ _, List.mem_cons_of_mem _ hcp⟩
            · exact ⟨p, List.mem_cons_of_mem _ hpq, hcp⟩

/-- No character of the local-part class is an uppercase ASCII letter. -/
lemma localAtomChar_no_upper (c : Char) (h : localAtomChar c = true)
    (h65 : 65 ≤ c.toNat) (h90 : c.toNat ≤ 90) : False := by
  simp only [localAtomChar, Bool.or_eq_true, Bool.and_eq_true,
    decide_eq_true_eq] at h
  rcases h with (⟨a, b⟩ | ⟨a, b⟩) | hm
  · omega
  · omega
  · simp only [specialLocalCodes, List.mem_cons, List.not_mem_nil, or_false] at hm
    rcases hm with h | h | h | h | h | h | h | h | h | h | h | h | h | h | h | h |
      h | h | h <;> omega

/-- No character of a domain label is an uppercase ASCII letter. -/
lemma labelChar_no_upper (c : Char)
    (h : (lowerDigitChar c || decide (c.toNat = 45)) = true)
    (h65 : 65 ≤ c.toNat) (h90 : c.toNat ≤ 90) : False := by
  simp only [lowerDigitChar, Bool.or_eq_true, Bool.and_eq_true,
    decide_eq_true_eq] at h
  rcases h with (⟨a, b⟩ | ⟨a, b⟩) | h <;> omega

/-- C9: the email format check is lowercase-only: any address containing an
uppercase ASCII letter fails `is_valid_format` (the regex has no uppercase in
any character class and is matched without case-insensitivity), and therefore
`validate_email_address` rejects it whatever the library validator, the MX
lookup and the `check_mx` flag would have said. -/
theorem uppercase_email_rejected (email : String) (c : Char) (hc : c ∈ email.data)
    (h65 : 65 ≤ c.toNat) (h90 : c.toNat ≤ 90) :
    is_valid_format email = false ∧
    ∀ (emailValidatorOk : String → Bool)
      (mxRecords : String → Option (List String)) (check_mx : Bool),
      validate_email_address emailValidatorOk mxRecords check_mx email = false := by
  have hnl : c ≠ '\n' := by
    intro h
    rw [h] at h65
    exact absurd h65 (by decide)
  have hcs : c ∈ stripFinalNewline email.data := by
    unfold stripFinalNewline
    split
    case isTrue hlast =>
      have hne : email.data ≠ [] := by
        intro h
        rw [h] at hlast
        exact Option.noConfusion hlast
      have hsplit := List.dropLast_append_getLast hne
      rw [← hsplit] at hc
      rcases List.mem_append.mp hc with h | h
      · exact h
      · exfalso
        rcases List.mem_singleton.mp h with rfl
        rw [List.getLast?_eq_getLast _ hne] at hlast
        exact hnl (Option.some.inj hlast)
    case isFalse => exact hc
  have hfmt : is_valid_format email = false := by
    cases hv : is_valid_format email
    · rfl
    exfalso
    unfold is_valid_format at hv
    cases hsp : splitChar '@' (stripFinalNewline email.data) with
    | nil => rw [hsp] at hv; simp at hv
    | cons l tail =>
      cases tail with
      | nil => rw [hsp] at hv; simp at hv
      | cons d tail2 =>
        cases tail2 with
        | cons e rest => rw [hsp] at hv; simp at hv
        | nil =>
          rw [hsp] at hv
          simp only [Bool.and_eq_true] at hv
          obtain ⟨hl, hd⟩ := hv
          have hat : c ≠ '@' := by
            intro h
            rw [h] at h65
            exact absurd h65 (by decide)
          have hdot : c ≠ '.' := by
            intro h
            rw [h] at h65
            exact absurd h65 (by decide)
          rcases splitChar_mem '@' _ c hcs with h | ⟨p, hp, hcp⟩
          · exact hat h
          rw [hsp] at hp
          have hpld : p = l ∨ p = d := by
            rcases List.mem_cons.mp hp with rfl | hp'
            · exact Or.inl rfl
            · exact Or.inr (List.mem_singleton.mp hp')
          rcases hpld with rfl | rfl
          · -- c is in the local part
            rcases splitChar_mem '.' p c hcp with h | ⟨q, hq, hcq⟩
            · exact hdot h
            have := List.all_eq_true.mp hl q hq
            simp only [Bool.and_eq_true] at this
            exact localAtomChar_no_upper c
              (List.all_eq_true.mp this.2 c hcq) h65 h90
          · -- c is in the domain
            simp only [domainOk, Bool.and_eq_true] at hd
            rcases splitChar_mem '.' p c hcp with h | ⟨q, hq, hcq⟩
            · exact hdot h
            have hlab := List.all_eq_true.mp hd.2 q hq
            simp only [labelOk, Bool.and_eq_true] at hlab
            exact labelChar_no_upper c
              (List.all_eq_true.mp hlab.1.1.2 c hcq) h65 h90
  exact ⟨hfmt, fun ev mx cm => by simp [validate_email_address, hfmt]⟩

/-- C9 (witness): `"User@example.com"` contains the uppercase `U` and is
rejected by both checks. -/
theorem uppercase_email_rejected_witness :
    is_valid_format "User@example.com" = false ∧
    validate_email_address (fun _ => true) (fun _ => some ["mx"]) true
      "User@example.com" = false := by
  obtain ⟨h1, h2⟩ := uppercase_email_rejected "User@example.com" 'U'
    (by decide) (by decide) (by decide)
  exact ⟨h1, h2 (fun _ => true) (fun _ => some ["mx"]) true⟩

end Syntx
